import Mathlib

/-!
Verification of the cart / validation / pricing core of the
Agentic_Commerce repository.

The Python source is shallowly embedded as executable Lean definitions:

* `merchant_agent/cart_service.py` — `CartService` becomes a pure state
  machine over an association-list store: `add_to_cart`, `view_cart`,
  `remove_from_cart`, `variations_match`, `default_shipping_calculator`,
  `recalculate_shipping`, `get_cart_summary`.
* `merchant_agent/tools.py` — `SchemaValidator.validate_product`,
  `validate_order_item`, `validate_order_dict` become functions over a
  model `PyVal` of Python JSON-like values; `MerchantTools.calculate_total`
  and the post-callback part of `MerchantTools.create_order` become pure
  functions parameterised by the merchant lookup callback.

Python floats are modelled as exact rationals `ℚ`; `datetime.now()` is an
abstract timestamp string supplied to every mutating operation; raising an
exception is modelled by `Except` / `Option` / a dedicated outcome type.
-/

section AgenticCommerce

attribute [local semireducible] Rat.add Rat.mul Rat.sub Rat.inv Rat.ofScientific

/-! ### String primitives

Python compares strings lexicographically by code point, and `str.strip`
tests in the validator only ever feed `not s.strip()`, i.e. "is the string
all whitespace".  We model both with structurally recursive, kernel
computable functions on the character list. -/

/-- Lexicographic strict comparison of character lists by code point,
modelling Python string `<`. -/
def strLtList : List Char → List Char → Bool
  | [], [] => false
  | [], _ :: _ => true
  | _ :: _, [] => false
  | a :: as, b :: bs =>
    if a.toNat < b.toNat then true
    else if b.toNat < a.toNat then false
    else strLtList as bs

/-- Python string strict order. -/
def strLt (a b : String) : Bool := strLtList a.data b.data

/-- Python string non-strict order (total, since the strict order is a
strict total order). -/
def strLe (a b : String) : Bool := !(strLt b a)

/-- Model of Python `not s.strip()`: the string contains only whitespace
(in particular the empty string). -/
def isBlank (s : String) : Bool := s.data.all Char.isWhitespace

/-! ### Selected variations and the variation matcher
(`CartService._variations_match`, cart_service.py lines 223-236)

A selected variation is a Python dict.  The matcher sorts both lists by
the key `(x.get("type",""), x.get("name",""))` and then compares the
sorted lists with Python `==`, which compares the *entire* dicts.  We
model a variation dict as its `type` and `name` fields plus the
canonically-ordered remaining key/value pairs (e.g. a `price_modifier`
entry); structural equality of `Variation` then models dict equality. -/

structure Variation where
  type : String
  name : String
  extra : List (String × String) := []
deriving DecidableEq, Repr

/-- Sort key used by the matcher: `(x.get("type",""), x.get("name",""))`. -/
def varKey (v : Variation) : String × String := (v.type, v.name)

/-- Python tuple comparison `(type, name) <= (type, name)`. -/
def keyLeB (a b : Variation) : Bool :=
  strLt a.type b.type || (a.type == b.type && strLe a.name b.name)

/-- The sorting relation, as a decidable proposition. -/
def keyLe (a b : Variation) : Prop := keyLeB a b = true

instance : DecidableRel keyLe := fun a b => inferInstanceAs (Decidable (_ = true))

/-- Python `sorted(vars, key=lambda x: (x.get("type",""), x.get("name","")))`:
`sorted` is a stable sort, and stable insertion sort on the non-strict key
order is exactly that. -/
def sortVars (l : List Variation) : List Variation := l.insertionSort keyLe

/-- CartService._variations_match (cart_service.py lines 223-236):
different lengths never match; otherwise the two lists sorted by
`(type, name)` are compared as whole dicts. -/
def variations_match (vars1 vars2 : List Variation) : Bool :=
  if vars1.length ≠ vars2.length then false
  else sortVars vars1 == sortVars vars2

/-- Modelled from the spec (§4.1), for comparison with the code:
"Equal iff same length and, after canonicalizing each list by sorting on
(`type`, `name`), element-wise equal on (`type`, `name`).  Price-modifier
and any extra fields are ignored for matching." -/
def specVariationsMatch (vars1 vars2 : List Variation) : Bool :=
  vars1.length == vars2.length &&
    (sortVars vars1).map varKey == (sortVars vars2).map varKey

/-! ### Cart data (cart_service.py)

A cart item is the dict built in `add_to_cart`: `product_id`, `quantity`,
`variations`, and optionally `unit_price` together with `amount`
(`unit_price` and `amount` are inserted together at creation; on a merge
`amount` is rewritten only when `unit_price` is present). -/

structure CartItem where
  product_id : String
  quantity : Int
  variations : List Variation
  unit_price : Option ℚ := none
  amount : Option ℚ := none
deriving DecidableEq, Repr

/-- The per-session cart dict created in `add_to_cart` (lines 51-58):
`session_id`, `items`, a stored `shipping_fee` (written once as 0.0 and
never updated — summaries recompute it), `created_at`, `updated_at`. -/
structure Cart where
  session_id : String
  items : List CartItem
  shipping_fee : ℚ := 0
  created_at : String
  updated_at : String
deriving DecidableEq, Repr

/-- The in-memory store `self._carts : {session_id: cart_data}`, modelled
as an association list keyed by session id. -/
def Store := List (String × Cart)
deriving DecidableEq

instance : EmptyCollection Store := ⟨([] : List (String × Cart))⟩

instance {ε α : Type} [DecidableEq ε] [DecidableEq α] : DecidableEq (Except ε α) :=
  fun x y =>
    match x, y with
    | .ok a, .ok b =>
      if h : a = b then .isTrue (by rw [h]) else .isFalse (fun hh => by cases hh; exact h rfl)
    | .error a, .error b =>
      if h : a = b then .isTrue (by rw [h]) else .isFalse (fun hh => by cases hh; exact h rfl)
    | .ok _, .error _ => .isFalse (fun hh => by cases hh)
    | .error _, .ok _ => .isFalse (fun hh => by cases hh)

/-- Python dict read `self._carts.get(session_id)`. -/
def lookupStore (st : Store) (sid : String) : Option Cart :=
  match st with
  | ([] : List (String × Cart)) => none
  | (k, c) :: rest => if k = sid then some c else lookupStore rest sid

/-- Python dict write `self._carts[session_id] = cart`. -/
def storeSet (st : Store) (sid : String) (c : Cart) : Store :=
  match st with
  | ([] : List (String × Cart)) => [(sid, c)]
  | (k, c0) :: rest =>
    if k = sid then (k, c) :: rest else (k, c0) :: storeSet rest sid c

/-- Items of the cart a session currently has (empty when no cart). -/
def itemsAt (st : Store) (sid : String) : List CartItem :=
  ((lookupStore st sid).map Cart.items).getD []

/-- A shipping calculator `(subtotal, item_count, items) -> fee`,
the type of `self.shipping_calculator`. -/
def ShipCalc := ℚ → Nat → List CartItem → ℚ

/-- CartService._default_shipping_calculator (lines 175-196): free for
subtotal ≥ 50, otherwise a 5.0 base fee plus 0.5 per item after the
first. -/
def default_shipping_calculator (subtotal : ℚ) (item_count : Nat)
    (_items : List CartItem) : ℚ :=
  if subtotal ≥ 50.0 then 0.0
  else 5.0 + (max 0 (item_count - 1) : Nat) * 0.5

/-- Subtotal as computed inside `_recalculate_shipping` (line 215):
`sum(item.get("amount", 0) for item in items)`. -/
def amountSum (items : List CartItem) : ℚ :=
  (items.map (fun i => i.amount.getD 0)).sum

/-- CartService._recalculate_shipping (lines 198-221): 0 for a missing
session, otherwise the injected calculator applied to the current
subtotal, item count and items, clamped to ≥ 0. -/
def recalculate_shipping (sc : ShipCalc) (st : Store) (sid : String) : ℚ :=
  match lookupStore st sid with
  | none => 0
  | some cart =>
    let items := cart.items
    let subtotal := amountSum items
    let shipping_fee := sc subtotal items.length items
    max 0 shipping_fee

/-- Subtotal as computed inside `_get_cart_summary` (lines 243-246): add
`item["amount"]` for exactly the items that carry an `amount`. -/
def resolvedSubtotal (items : List CartItem) : ℚ :=
  items.foldl (fun acc i => match i.amount with | some a => acc + a | none => acc) 0

/-- The summary dict returned by every cart operation. -/
structure CartSummary where
  session_id : String
  items : List CartItem
  item_count : Nat
  subtotal : ℚ
  shipping_fee : ℚ
  total_amount : ℚ
  updated_at : String
deriving DecidableEq, Repr

/-- CartService._get_cart_summary (lines 238-261). -/
def get_cart_summary (sc : ShipCalc) (st : Store) (sid : String) : CartSummary :=
  let items := itemsAt st sid
  let subtotal := resolvedSubtotal items
  let shipping_fee := recalculate_shipping sc st sid
  let total_amount := subtotal + shipping_fee
  { session_id := sid
    items := items
    item_count := items.length
    subtotal := subtotal
    shipping_fee := shipping_fee
    total_amount := total_amount
    updated_at := ((lookupStore st sid).map Cart.updated_at).getD "" }

/-- Result type of `view_cart` and `remove_from_cart`: either the
reduced `{session_id, items, item_count, message}` dict returned when the
session has no cart, or a full summary dict. -/
inductive CartView where
  | emptyMsg (session_id : String) (items : List CartItem) (item_count : Nat)
      (message : String)
  | summary (s : CartSummary)
deriving DecidableEq, Repr

/-- Merge step of `add_to_cart` (lines 62-78): find the first item with
the same product id and matching variations and bump its quantity,
recomputing `amount` when a `unit_price` is stored; `none` when no item
matches. -/
def bumpFirst (product_id : String) (vars : List Variation) (quantity : Int) :
    List CartItem → Option (List CartItem)
  | [] => none
  | i :: rest =>
    if i.product_id = product_id ∧ variations_match i.variations vars = true then
      some ({ i with
              quantity := i.quantity + quantity,
              amount := match i.unit_price with
                | some u => some (u * (i.quantity + quantity))
                | none => i.amount } :: rest)
    else (bumpFirst product_id vars quantity rest).map (i :: ·)

/-- CartService.add_to_cart (lines 26-96).  `now` stands for
`datetime.now().isoformat()`.  A non-positive quantity raises
`ValueError` (modelled as `Except.error`) before any state change. -/
def add_to_cart (sc : ShipCalc) (st : Store) (session_id product_id : String)
    (quantity : Int) (variations : List Variation) (unit_price : Option ℚ)
    (now : String) : Except String (CartSummary × Store) :=
  if quantity ≤ 0 then .error "Quantity must be greater than 0"
  else
    let cart := (lookupStore st session_id).getD
      { session_id := session_id, items := [], shipping_fee := 0.0,
        created_at := now, updated_at := now }
    let newItems :=
      match bumpFirst product_id variations quantity cart.items with
      | some items => items
      | none =>
        cart.items ++
          [{ product_id := product_id, quantity := quantity,
             variations := variations, unit_price := unit_price,
             amount := unit_price.map (fun u => u * quantity) }]
    let cart := { cart with items := newItems, updated_at := now }
    let st := storeSet st session_id cart
    .ok (get_cart_summary sc st session_id, st)

/-- CartService.view_cart (lines 98-116): non-mutating; a missing session
yields the reduced empty-cart dict, not a summary. -/
def view_cart (sc : ShipCalc) (st : Store) (session_id : String) :
    CartView × Store :=
  match lookupStore st session_id with
  | none => (.emptyMsg session_id [] 0 "Cart is empty", st)
  | some _ => (.summary (get_cart_summary sc st session_id), st)

/-- CartService.remove_from_cart (lines 118-163): drop every item
matching `(product_id, variations)`; refresh `updated_at` only when
something was removed. -/
def remove_from_cart (sc : ShipCalc) (st : Store) (session_id product_id : String)
    (variations : List Variation) (now : String) : CartView × Store :=
  match lookupStore st session_id with
  | none => (.emptyMsg session_id [] 0 "Cart is empty", st)
  | some cart =>
    let newItems := cart.items.filter
      (fun i => ¬(i.product_id = product_id ∧
                  variations_match i.variations variations = true))
    let removed := cart.items.length - newItems.length
    let cart := { cart with
      items := newItems,
      updated_at := if removed > 0 then now else cart.updated_at }
    let st := storeSet st session_id cart
    (.summary (get_cart_summary sc st session_id), st)

/-! ### Pricing preview (`MerchantTools.calculate_total`, tools.py 438-491)

`calculate_total` is parameterised by the merchant lookup callback
`get_products(product_id=pid, limit=1)`, modelled as a pure function from
a product id to the returned list. -/

/-- One entry of a product variation catalog (`type`, `name`,
`price_modifier`). -/
structure CatVar where
  type : String
  name : String
  price_modifier : ℚ
deriving DecidableEq, Repr

/-- The fields of a looked-up product dict that `calculate_total`
reads: `name`, `base_price` and the optional variation catalog
(`product.get("variations")`; `none` models both an absent key and an
explicit `None`). -/
structure ProductRec where
  name : String
  base_price : ℚ
  variations : Option (List CatVar) := none
deriving DecidableEq, Repr

/-- One requested line `{product_id, quantity, variations?}`.
`item.get("variations", [])` makes the missing case the empty list. -/
structure ReqLine where
  product_id : String
  quantity : Int
  variations : List Variation := []
deriving DecidableEq, Repr

/-- A priced line of the response dict. -/
structure PricedItem where
  product_id : String
  product_name : String
  quantity : Int
  unit_price : ℚ
  variations : Option (List Variation)
deriving DecidableEq, Repr

/-- Response of `calculate_total`. -/
structure CalcResponse where
  items : List PricedItem
  total_amount : ℚ
deriving DecidableEq, Repr

/-- Inner loop of tools.py lines 468-473: for one selected variation,
scan the catalog and add the price modifier of the first entry whose
`type` and `name` both agree (`break`); an unmatched selection
contributes nothing. -/
def firstModifier (catalog : List CatVar) (sv : Variation) : ℚ :=
  match catalog.find? (fun pv => pv.type == sv.type && pv.name == sv.name) with
  | some pv => pv.price_modifier
  | none => 0

/-- Lines 466-473: `item_price = base_price`, then, when both the
selected list and the catalog are truthy (non-empty), add the first
matching modifier for each selected variation. -/
def itemPrice (p : ProductRec) (selected : List Variation) : ℚ :=
  if selected ≠ [] ∧ p.variations.getD [] ≠ [] then
    selected.foldl (fun acc sv => acc + firstModifier (p.variations.getD []) sv)
      p.base_price
  else p.base_price

/-- The loop of `calculate_total` over the requested lines, accumulating
priced items and the running total; an empty lookup result raises
`ValueError` (`Product ... not found`). -/
def calcLoop (lookup : String → List ProductRec) :
    List ReqLine → Except String (List PricedItem × ℚ)
  | [] => .ok ([], 0)
  | line :: rest =>
    match lookup line.product_id with
    | [] => .error ("Product " ++ line.product_id ++ " not found")
    | p :: _ =>
      let price := itemPrice p line.variations
      match calcLoop lookup rest with
      | .error e => .error e
      | .ok (its, total) =>
        .ok ({ product_id := line.product_id, product_name := p.name,
               quantity := line.quantity, unit_price := price,
               variations := if line.variations = [] then none
                             else some line.variations } :: its,
             price * line.quantity + total)

/-- MerchantTools.calculate_total (tools.py lines 438-491), a pure
function of the lookup callback and the requested lines. -/
def calculate_total (lookup : String → List ProductRec) (items : List ReqLine) :
    Except String CalcResponse :=
  (calcLoop lookup items).map (fun r => { items := r.1, total_amount := r.2 })

/-- The priced line the spec promises for a request line `line` resolved
against product `p`: unit price `base_price` plus the sum, over the
selected variations, of the price modifier of a matching catalog entry
(0 when unmatched); quantity and product name copied over. -/
def specPricedLine (line : ReqLine) (p : ProductRec) : PricedItem :=
  { product_id := line.product_id
    product_name := p.name
    quantity := line.quantity
    unit_price := p.base_price +
      ((line.variations.map (firstModifier (p.variations.getD []))).sum)
    variations := if line.variations = [] then none else some line.variations }

/-! ### Python values and the schema validator (tools.py 125-271)

The validators receive arbitrary Python data; `PyVal` models the
JSON-like fragment that can reach them.  A validator returns the pair
`(ok, reason)` exactly as the source does; the reason strings are kept
short but non-empty on every failing branch. -/

inductive PyVal where
  | pstr (s : String)
  | pint (n : Int)
  | pfloat (q : ℚ)
  | pnone
  | plist (xs : List PyVal)
  | pdict (kvs : List (String × PyVal))
deriving Repr

/-- Python dict read `d.get(k)` on the association-list model. -/
def dget : List (String × PyVal) → String → Option PyVal
  | [], _ => none
  | (k, v) :: rest, key => if k = key then some v else dget rest key

/-- Python `k in d`. -/
def hasKey (d : List (String × PyVal)) (k : String) : Bool := (dget d k).isSome

/-- Digits to a natural number. -/
def digitsToNat (ds : List Char) : Nat :=
  ds.foldl (fun acc c => acc * 10 + (c.toNat - 48)) 0

/-- Model of Python `float(s)` on a string: optional surrounding
whitespace, optional sign, then digits with at most one decimal point and
at least one digit overall.  (Exponents, `inf` and `nan` are outside the
fragment exercised here and parse to `none`.) -/
def parseDecimal? (s : String) : Option ℚ :=
  let cs := (s.data.dropWhile Char.isWhitespace).reverse.dropWhile
    Char.isWhitespace |>.reverse
  let (neg, body) :=
    match cs with
    | '-' :: rest => (true, rest)
    | '+' :: rest => (false, rest)
    | _ => (false, cs)
  let ipart := body.takeWhile (fun c => c ≠ '.')
  let rest := body.dropWhile (fun c => c ≠ '.')
  let fpart := match rest with
    | '.' :: tl => some tl
    | _ => none
  let digits := ipart ++ (fpart.getD [])
  if digits = [] then none
  else if ¬ (digits.all Char.isDigit) then none
  else if rest ≠ [] ∧ fpart = none then none
  else
    let fp := fpart.getD []
    let mag : ℚ := (digitsToNat ipart : ℚ) +
      (digitsToNat fp : ℚ) / ((10 : ℚ) ^ fp.length)
    some (if neg then -mag else mag)

/-- Model of Python `float(x)`: numbers coerce, numeric strings parse,
everything else raises (`none`). -/
def pyFloat? : PyVal → Option ℚ
  | .pint n => some (n : ℚ)
  | .pfloat q => some q
  | .pstr s => parseDecimal? s
  | _ => none

/-- Model of Python `int(x)`: ints pass through, floats truncate toward
zero, strings must be (signed) digit strings, everything else raises. -/
def pyInt? : PyVal → Option Int
  | .pint n => some n
  | .pfloat q => some (if q < 0 then -((-q).floor) else q.floor)
  | .pstr s =>
    let cs := (s.data.dropWhile Char.isWhitespace).reverse.dropWhile
      Char.isWhitespace |>.reverse
    let (neg, body) :=
      match cs with
      | '-' :: rest => (true, rest)
      | '+' :: rest => (false, rest)
      | _ => (false, cs)
    if body = [] ∨ ¬ (body.all Char.isDigit) then none
    else some (if neg then -(digitsToNat body : Int) else (digitsToNat body : Int))
  | _ => none

/-- Sequential early-return validation: run each check in order and stop
at the first failure, exactly the shape of the `if ...: return False, msg`
chains in `SchemaValidator`. -/
def runChecks (d : List (String × PyVal)) :
    List (List (String × PyVal) → Bool × String) → Bool × String
  | [] => (true, "")
  | c :: cs => let r := c d; if r.1 then runChecks d cs else r

/-- First-failure check of a list of values. -/
def checkEach (f : PyVal → Bool × String) : List PyVal → Bool × String
  | [] => (true, "")
  | x :: xs => let r := f x; if r.1 then checkEach f xs else r

/-- Missing required keys, `required - set(product.keys())`. -/
def missingKeys (d : List (String × PyVal)) (required : List String) : List String :=
  required.filter (fun k => ¬ hasKey d k)

/-- A value that must be a non-empty (after strip) string. -/
def checkNonEmptyStr (d : List (String × PyVal)) (k : String) (msg : String) :
    Bool × String :=
  match dget d k with
  | some (.pstr s) => if isBlank s then (false, msg) else (true, "")
  | _ => (false, msg)

/-- One catalog entry inside `product["variations"]`
(tools.py lines 168-182). -/
def checkProductVariation (x : PyVal) : Bool × String :=
  match x with
  | .pdict kv =>
    if missingKeys kv ["type", "name", "price_modifier"] ≠ [] then
      (false, "variation missing keys")
    else
      let r1 := checkNonEmptyStr kv "type" "variation type must be non-empty string"
      if ¬ r1.1 then r1
      else
        let r2 := checkNonEmptyStr kv "name" "variation name must be non-empty string"
        if ¬ r2.1 then r2
        else
          match dget kv "price_modifier" with
          | some v =>
            if (pyFloat? v).isSome then (true, "")
            else (false, "variation price_modifier must be numeric")
          | none => (false, "variation missing keys")
  | _ => (false, "variation must be dict")

/-- Check 1 of `validate_product`: required keys present. -/
def checkProductRequired (d : List (String × PyVal)) : Bool × String :=
  if missingKeys d ["id", "name", "base_price", "stock_level"] ≠ [] then
    (false, "Product missing required keys")
  else (true, "")

/-- Check 2 of `validate_product`: `id` non-empty string. -/
def checkProductId (d : List (String × PyVal)) : Bool × String :=
  checkNonEmptyStr d "id" "product id must be non-empty string"

/-- Check 3 of `validate_product`: `name` non-empty string. -/
def checkProductName (d : List (String × PyVal)) : Bool × String :=
  checkNonEmptyStr d "name" "product name must be non-empty string"

/-- Check 4 of `validate_product`: `base_price` coerces to a
non-negative number. -/
def checkProductBasePrice (d : List (String × PyVal)) : Bool × String :=
  match dget d "base_price" with
  | some v =>
    match pyFloat? v with
    | some q => if q < 0 then (false, "product base_price must be >= 0")
                else (true, "")
    | none => (false, "product base_price must be numeric")
  | none => (false, "Product missing required keys")

/-- Check 5 of `validate_product`: `stock_level` a non-negative int. -/
def checkProductStock (d : List (String × PyVal)) : Bool × String :=
  match dget d "stock_level" with
  | some (.pint n) => if n < 0 then (false, "product stock_level must be >= 0")
                      else (true, "")
  | some _ => (false, "product stock_level must be int")
  | none => (false, "Product missing required keys")

/-- Check 6 of `validate_product`: optional `description` is a string. -/
def checkProductDescription (d : List (String × PyVal)) : Bool × String :=
  match dget d "description" with
  | none => (true, "")
  | some (.pstr _) => (true, "")
  | some _ => (false, "product description must be string")

/-- Check 7 of `validate_product`: optional `image` is a string or null. -/
def checkProductImage (d : List (String × PyVal)) : Bool × String :=
  match dget d "image" with
  | none => (true, "")
  | some .pnone => (true, "")
  | some (.pstr _) => (true, "")
  | some _ => (false, "product image must be string or null")

/-- Check 8 of `validate_product`: optional `variations` list. -/
def checkProductVariationList (d : List (String × PyVal)) : Bool × String :=
  match dget d "variations" with
  | none => (true, "")
  | some .pnone => (true, "")
  | some (.plist xs) => checkEach checkProductVariation xs
  | some _ => (false, "product variations must be list or null")

/-- The ordered checks of `SchemaValidator.validate_product`
(tools.py lines 128-184). -/
def productChecks : List (List (String × PyVal) → Bool × String) :=
  [checkProductRequired, checkProductId, checkProductName,
   checkProductBasePrice, checkProductStock, checkProductDescription,
   checkProductImage, checkProductVariationList]

/-- SchemaValidator.validate_product (tools.py lines 128-184). -/
def validate_product (v : PyVal) : Bool × String :=
  match v with
  | .pdict d => runChecks d productChecks
  | _ => (false, "Product must be dict")

/-- One selected variation inside an order item
(tools.py lines 228-234). -/
def checkItemVariation (x : PyVal) : Bool × String :=
  match x with
  | .pdict kv =>
    if ¬ (hasKey kv "type" && hasKey kv "name") then
      (false, "item variation must have type and name")
    else
      match dget kv "type", dget kv "name" with
      | some (.pstr _), some (.pstr _) => (true, "")
      | _, _ => (false, "item variation type and name must be strings")
  | _ => (false, "item variation must be dict")

/-- Check 1 of `validate_order_item`: required keys present. -/
def checkItemRequired (d : List (String × PyVal)) : Bool × String :=
  if missingKeys d ["product_id", "quantity"] ≠ [] then
    (false, "Order item missing required keys")
  else (true, "")

/-- Check 2 of `validate_order_item`: `product_id` non-empty string. -/
def checkItemProductId (d : List (String × PyVal)) : Bool × String :=
  checkNonEmptyStr d "product_id" "item product_id must be non-empty string"

/-- Check 3 of `validate_order_item`: `quantity` an integer > 0. -/
def checkItemQuantity (d : List (String × PyVal)) : Bool × String :=
  match dget d "quantity" with
  | some v =>
    match pyInt? v with
    | some q => if q ≤ 0 then (false, "item quantity must be > 0") else (true, "")
    | none => (false, "item quantity must be integer")
  | none => (false, "Order item missing required keys")

/-- Check 4 of `validate_order_item`: optional `variations` list. -/
def checkItemVariationList (d : List (String × PyVal)) : Bool × String :=
  match dget d "variations" with
  | none => (true, "")
  | some .pnone => (true, "")
  | some (.plist xs) => checkEach checkItemVariation xs
  | some _ => (false, "item variations must be list or null")

/-- The ordered checks of `SchemaValidator.validate_order_item`
(tools.py lines 203-236). -/
def orderItemChecks : List (List (String × PyVal) → Bool × String) :=
  [checkItemRequired, checkItemProductId, checkItemQuantity,
   checkItemVariationList]

/-- SchemaValidator.validate_order_item (tools.py lines 203-236). -/
def validate_order_item (v : PyVal) : Bool × String :=
  match v with
  | .pdict d => runChecks d orderItemChecks
  | _ => (false, "Order item must be dict")

/-- Check 1 of `validate_order_dict`: required keys present. -/
def checkOrderRequired (d : List (String × PyVal)) : Bool × String :=
  if missingKeys d ["order_id", "items", "total_amount"] ≠ [] then
    (false, "Order missing required keys")
  else (true, "")

/-- Check 2 of `validate_order_dict`: `order_id` non-empty string. -/
def checkOrderId (d : List (String × PyVal)) : Bool × String :=
  checkNonEmptyStr d "order_id" "order_id must be non-empty string"

/-- Check 3 of `validate_order_dict`: `items` a non-empty list whose
elements pass order-item validation. -/
def checkOrderItems (d : List (String × PyVal)) : Bool × String :=
  match dget d "items" with
  | some (.plist []) => (false, "order items cannot be empty")
  | some (.plist xs) => checkEach validate_order_item xs
  | some _ => (false, "order items must be list")
  | none => (false, "Order missing required keys")

/-- Check 4 of `validate_order_dict`: `total_amount` coerces to a
non-negative number. -/
def checkOrderTotal (d : List (String × PyVal)) : Bool × String :=
  match dget d "total_amount" with
  | some v =>
    match pyFloat? v with
    | some q => if q < 0 then (false, "order total_amount cannot be negative")
                else (true, "")
    | none => (false, "order total_amount must be numeric")
  | none => (false, "Order missing required keys")

/-- The ordered checks of `SchemaValidator.validate_order_dict`
(tools.py lines 239-271). -/
def orderChecks : List (List (String × PyVal) → Bool × String) :=
  [checkOrderRequired, checkOrderId, checkOrderItems, checkOrderTotal]

/-- SchemaValidator.validate_order_dict (tools.py lines 239-271). -/
def validate_order_dict (v : PyVal) : Bool × String :=
  match v with
  | .pdict d => runChecks d orderChecks
  | _ => (false, "Order must be dict")

/-! ### The order boundary (`MerchantTools.create_order`, tools.py 390-436)

After the merchant callback returned `order_data` and
`validate_order_dict` passed, the code builds
`OrderItem(product_id=item["product_id"], quantity=int(item["quantity"]),
unit_price=float(item["unit_price"]), variations=item.get("variations"))`
for every returned item and assembles an `OrderResponse`.  A `KeyError`
or failed coercion inside that mapping is an uncaught exception. -/

/-- The typed `OrderItem` dataclass (tools.py lines 53-59), with the raw
values the mapping actually stores. -/
structure OrderItemT where
  product_id : PyVal
  quantity : Int
  unit_price : ℚ
  variations : Option PyVal
deriving Repr

/-- The typed `OrderResponse` (tools.py lines 93-102) as far as
`create_order` fills it in. -/
structure OrderResponseT where
  order_id : PyVal
  items : List OrderItemT
  customer_id : String
  total_amount : ℚ
  status : PyVal
deriving Repr

/-- Mapping of one returned order item (tools.py lines 411-418); `none`
models the uncaught `KeyError` / `ValueError` / `TypeError`. -/
def mapOrderItem (x : PyVal) : Option OrderItemT :=
  match x with
  | .pdict d =>
    match dget d "product_id", dget d "quantity", dget d "unit_price" with
    | some pid, some q, some up =>
      match pyInt? q, pyFloat? up with
      | some qn, some upq =>
        some { product_id := pid, quantity := qn, unit_price := upq,
               variations := dget d "variations" }
      | _, _ => none
    | _, _, _ => none
  | _ => none

/-- Mapping of all returned order items. -/
def mapOrderItems : List PyVal → Option (List OrderItemT)
  | [] => some []
  | x :: xs =>
    match mapOrderItem x, mapOrderItems xs with
    | some i, some is => some (i :: is)
    | _, _ => none

/-- Outcome of the post-callback half of `create_order`: a raised
`ValidationError`, an uncaught exception inside the mapping, or the
assembled response. -/
inductive CreateOrderOutcome where
  | validationError (msg : String)
  | uncaughtError
  | ok (r : OrderResponseT)
deriving Repr

/-- Discriminators used in concrete evaluations. -/
def CreateOrderOutcome.isUncaught : CreateOrderOutcome → Bool
  | .uncaughtError => true
  | _ => false

def CreateOrderOutcome.isOk : CreateOrderOutcome → Bool
  | .ok _ => true
  | _ => false

/-- The part of MerchantTools.create_order after the merchant callback
returned `order_data` (tools.py lines 405-436): validate the returned
dict, then map the items and assemble the response
(`customer_id or "GUEST"`, `status` defaulting to `"CREATED"`). -/
def create_order_from_callback (order_data : PyVal)
    (customer_id : Option String) : CreateOrderOutcome :=
  let r := validate_order_dict order_data
  if ¬ r.1 then .validationError r.2
  else
    match order_data with
    | .pdict d =>
      match dget d "items" with
      | some (.plist xs) =>
        match mapOrderItems xs, dget d "order_id",
              (dget d "total_amount").bind pyFloat? with
        | some its, some oid, some total =>
          .ok { order_id := oid, items := its,
                customer_id := customer_id.getD "GUEST",
                total_amount := total,
                status := (dget d "status").getD (.pstr "CREATED") }
        | _, _, _ => .uncaughtError
      | _ => .uncaughtError
    | _ => .uncaughtError

/-! ### The summary invariant (claims C1, C8) -/

/-- The freshness invariant a returned summary must satisfy: count and
subtotal are derived from the listed items, the shipping fee is the
clamped value of the injected policy applied to the summary's own
subtotal / item count / items, and the total is their sum. -/
def SummaryInv (sc : ShipCalc) (s : CartSummary) : Prop :=
  s.item_count = s.items.length ∧
  s.total_amount = s.subtotal + s.shipping_fee ∧
  s.subtotal = resolvedSubtotal s.items ∧
  s.shipping_fee = max 0 (sc s.subtotal s.items.length s.items)

/-! ### Store and summary lemmas -/

theorem lookup_storeSet_self (st : Store) (sid : String) (c : Cart) :
    lookupStore (storeSet st sid c) sid = some c := by
  induction st with
  | nil => simp [storeSet, lookupStore]
  | cons p rest ih =>
    obtain ⟨k, c0⟩ := p
    by_cases h : k = sid <;> simp [storeSet, lookupStore, h, ih]

theorem storeSet_lookup_self (st : Store) (sid : String) (c : Cart)
    (h : lookupStore st sid = some c) : storeSet st sid c = st := by
  induction st with
  | nil => simp [lookupStore] at h
  | cons p rest ih =>
    obtain ⟨k, c0⟩ := p
    by_cases hk : k = sid
    · simp [lookupStore, hk] at h
      simp [storeSet, hk, h]
    · simp [lookupStore, hk] at h
      simp [storeSet, hk, ih h]

theorem resolvedSubtotal_eq_amountSum (items : List CartItem) :
    resolvedSubtotal items = amountSum items := by
  have aux : ∀ (l : List CartItem) (acc : ℚ),
      l.foldl (fun acc i => match i.amount with
        | some a => acc + a | none => acc) acc = acc + amountSum l := by
    intro l
    induction l with
    | nil => intro acc; simp [amountSum]
    | cons i rest ih =>
      intro acc
      cases h : i.amount with
      | none => simp [h, ih, amountSum, Option.getD]
      | some a => simp [h, ih, amountSum, Option.getD]; ring
  simpa [resolvedSubtotal] using aux items 0

theorem get_cart_summary_inv (sc : ShipCalc) (st : Store) (sid : String)
    (cart : Cart) (h : lookupStore st sid = some cart) :
    SummaryInv sc (get_cart_summary sc st sid) := by
  refine ⟨rfl, rfl, rfl, ?_⟩
  simp [get_cart_summary, recalculate_shipping, itemsAt, h,
    resolvedSubtotal_eq_amountSum]

/-- Discriminator: is a cart-operation result a full summary dict? -/
def CartView.isSummary : CartView → Bool
  | .summary _ => true
  | _ => false

/-! ### Claim theorems: C1, C6, C8, C9 -/

/-- C1: for every cart and after every cart-store operation (add, view,
remove), the returned summary satisfies
`total_amount = subtotal + shipping_fee`, where `subtotal` sums the
`amount` field over exactly the items that carry one, and `shipping_fee`
is recomputed from the current cart contents by the shipping policy at
the time of the call (clamped to ≥ 0, never a stored stale value). -/
theorem claim_C1_summary_invariant (sc : ShipCalc) (st : Store)
    (sid pid : String) (q : Int) (vars : List Variation) (up : Option ℚ)
    (now : String) :
    (∀ s st', add_to_cart sc st sid pid q vars up now = .ok (s, st') →
      SummaryInv sc s) ∧
    (∀ s, (view_cart sc st sid).1 = .summary s → SummaryInv sc s) ∧
    (∀ s st', remove_from_cart sc st sid pid vars now = (.summary s, st') →
      SummaryInv sc s) := by
  refine ⟨?_, ?_, ?_⟩
  · intro s st' h
    by_cases hq : q ≤ 0
    · simp [add_to_cart, hq] at h
    · simp only [add_to_cart, if_neg hq] at h
      obtain ⟨hs, hst⟩ := by simpa using h
      subst hs
      exact get_cart_summary_inv sc _ sid _ (lookup_storeSet_self st sid _)
  · intro s h
    cases hl : lookupStore st sid with
    | none => simp [view_cart, hl] at h
    | some cart =>
      simp only [view_cart, hl] at h
      obtain hs := by simpa using h
      subst hs
      exact get_cart_summary_inv sc st sid cart hl
  · intro s st' h
    cases hl : lookupStore st sid with
    | none => simp [remove_from_cart, hl] at h
    | some cart =>
      simp only [remove_from_cart, hl] at h
      obtain ⟨hs, hst⟩ := by simpa using h
      subst hs
      exact get_cart_summary_inv sc _ sid _ (lookup_storeSet_self st sid _)

/-- Witness for C1: a concrete `add` on the empty store returns a summary
satisfying the invariant. -/
theorem claim_C1_witness :
    SummaryInv default_shipping_calculator
      { session_id := "s",
        items := [{ product_id := "p", quantity := 2, variations := [],
                    unit_price := some 10, amount := some 20 }],
        item_count := 1, subtotal := 20, shipping_fee := 5,
        total_amount := 25, updated_at := "t" } :=
  (claim_C1_summary_invariant default_shipping_calculator ∅ "s" "p" 2 [] (some 10)
    "t").1 _
    [("s", { session_id := "s",
             items := [{ product_id := "p", quantity := 2, variations := [],
                         unit_price := some 10, amount := some 20 }],
             shipping_fee := 0, created_at := "t", updated_at := "t" })]
    (by decide)

/-- C6: the default shipping policy returns 0 whenever subtotal ≥ 50.0 and
otherwise 5.0 plus 0.5 per item beyond the first; in particular subtotal
49.99 with 1 item gives 5.0, subtotal 50.00 gives 0.0, and subtotal 10.0
with 3 items gives 6.0; and the fee used by the cart store is clamped to
≥ 0 for every (possibly custom) policy. -/
theorem claim_C6_default_shipping_policy :
    (∀ (s : ℚ) (n : Nat) (its : List CartItem), 50 ≤ s →
      default_shipping_calculator s n its = 0) ∧
    (∀ (s : ℚ) (n : Nat) (its : List CartItem), s < 50 →
      default_shipping_calculator s n its = 5 + ((n - 1 : Nat) : ℚ) * 0.5) ∧
    default_shipping_calculator 49.99 1 [] = 5 ∧
    (∀ (n : Nat) (its : List CartItem), default_shipping_calculator 50 n its = 0) ∧
    default_shipping_calculator 10 3 [] = 6 ∧
    (∀ (sc : ShipCalc) (st : Store) (sid : String),
      0 ≤ recalculate_shipping sc st sid) := by
  have h50 : (50.0 : ℚ) = 50 := by norm_num
  refine ⟨?_, ?_, by decide, ?_, by decide, ?_⟩
  · intro s n its h
    rw [default_shipping_calculator, h50, if_pos h]
    norm_num
  · intro s n its h
    rw [default_shipping_calculator, h50, if_neg (not_le.mpr h), Nat.zero_max]
    norm_num
  · intro n its
    rw [default_shipping_calculator, h50, if_pos le_rfl]
    norm_num
  · intro sc st sid
    unfold recalculate_shipping
    cases lookupStore st sid with
    | none => exact le_refl 0
    | some cart => exact le_max_left 0 _

/-- Witness for C6: the hypothesised clauses evaluated at concrete
inputs. -/
theorem claim_C6_witness :
    default_shipping_calculator 55 2 [] = 0 ∧
    default_shipping_calculator 10 3 [] = 5 + ((3 - 1 : Nat) : ℚ) * 0.5 :=
  ⟨claim_C6_default_shipping_policy.1 55 2 [] (by decide),
   claim_C6_default_shipping_policy.2.1 10 3 [] (by decide)⟩

/-- C8 as stated is false: on a session with no cart, `view_cart` does
not return a `CartSummary`-shaped value at all — it returns the reduced
`{session_id, items, item_count, message}` dict, which has no `subtotal`,
`shipping_fee`, `total_amount` or `updated_at` field. -/
theorem claim_C8_counterexample :
    (view_cart default_shipping_calculator ∅ "nosuch").1.isSummary = false ∧
    (view_cart default_shipping_calculator ∅ "nosuch").1 =
      CartView.emptyMsg "nosuch" [] 0 "Cart is empty" := by
  decide

/-- C8 (amended): for every session with no cart in the store,
`view(session_id)` does not fail and returns the empty-cart response with
`item_count` 0 — carrying the fields `session_id`, `items`, `item_count`
and a `message`, not a full `CartSummary`; and `view` never mutates the
store. -/
theorem claim_C8_view_missing_session (sc : ShipCalc) (st : Store)
    (sid : String) :
    ((view_cart sc st sid).2 = st) ∧
    (lookupStore st sid = none →
      (view_cart sc st sid).1 = CartView.emptyMsg sid [] 0 "Cart is empty") := by
  constructor
  · unfold view_cart
    cases lookupStore st sid <;> rfl
  · intro h
    simp [view_cart, h]

/-- Witness for C8 (amended): concrete empty store. -/
theorem claim_C8_witness :
    ((view_cart default_shipping_calculator ∅ "s1").2 = ∅) ∧
    (view_cart default_shipping_calculator ∅ "s1").1 =
      CartView.emptyMsg "s1" [] 0 "Cart is empty" :=
  ⟨(claim_C8_view_missing_session default_shipping_calculator ∅ "s1").1,
   (claim_C8_view_missing_session default_shipping_calculator ∅ "s1").2 rfl⟩

/-- C9: `remove` removes exactly the items matching
`(product_id, variations)` under the variation matcher; when no item
matches, the store is left unchanged (including `updated_at`), the
returned value reflects the prior state (it equals what `view` returns on
the unchanged store), and no error is raised — removal is idempotent. -/
theorem claim_C9_remove_idempotent (sc : ShipCalc) (st : Store)
    (sid pid : String) (vars : List Variation) (now : String) :
    itemsAt (remove_from_cart sc st sid pid vars now).2 sid =
      (itemsAt st sid).filter
        (fun i => ¬(i.product_id = pid ∧
          variations_match i.variations vars = true)) ∧
    ((∀ i ∈ itemsAt st sid, ¬(i.product_id = pid ∧
        variations_match i.variations vars = true)) →
      (remove_from_cart sc st sid pid vars now).2 = st ∧
      (remove_from_cart sc st sid pid vars now).1 = (view_cart sc st sid).1) := by
  cases hl : lookupStore st sid with
  | none =>
    refine ⟨?_, fun _ => ⟨?_, ?_⟩⟩ <;>
      simp [remove_from_cart, view_cart, itemsAt, hl]
  | some cart =>
    constructor
    · simp [remove_from_cart, hl, itemsAt, lookup_storeSet_self]
    · intro hnone
      have hfilter : cart.items.filter
          (fun i => ¬(i.product_id = pid ∧
            variations_match i.variations vars = true)) = cart.items := by
        rw [List.filter_eq_self]
        intro a ha
        exact decide_eq_true (hnone a (by simpa [itemsAt, hl] using ha))
      have hcart : ({ cart with
          items := cart.items.filter
            (fun i => ¬(i.product_id = pid ∧
              variations_match i.variations vars = true)),
          updated_at := if cart.items.length -
              (cart.items.filter (fun i => ¬(i.product_id = pid ∧
                variations_match i.variations vars = true))).length > 0
            then now else cart.updated_at } : Cart) = cart := by
        rw [hfilter]
        simp
      constructor
      · simp only [remove_from_cart, hl, hcart]
        exact storeSet_lookup_self st sid cart hl
      · simp only [remove_from_cart, hl, hcart, view_cart]
        rw [storeSet_lookup_self st sid cart hl]

/-- Witness for C9: removing an absent product from a one-item cart
leaves the store untouched and returns the prior summary. -/
theorem claim_C9_witness :
    (remove_from_cart default_shipping_calculator
      [("s", { session_id := "s",
               items := [{ product_id := "p", quantity := 1, variations := [],
                           unit_price := some 10, amount := some 10 }],
               shipping_fee := 0, created_at := "t", updated_at := "t" })]
      "s" "other" [] "t2").2 =
      [("s", { session_id := "s",
               items := [{ product_id := "p", quantity := 1, variations := [],
                           unit_price := some 10, amount := some 10 }],
               shipping_fee := 0, created_at := "t", updated_at := "t" })] :=
  ((claim_C9_remove_idempotent default_shipping_calculator
    [("s", { session_id := "s",
             items := [{ product_id := "p", quantity := 1, variations := [],
                         unit_price := some 10, amount := some 10 }],
             shipping_fee := 0, created_at := "t", updated_at := "t" })]
    "s" "other" [] "t2").2 (by decide)).1

/-! ### Order lemmas for the variation sort (claims C2, C3, C10) -/

theorem strLtList_irrefl (l : List Char) : strLtList l l = false := by
  induction l with
  | nil => rfl
  | cons a as ih => simp [strLtList, ih]

theorem charEqOfToNatEq {x y : Char} (h : x.toNat = y.toNat) : x = y :=
  Char.eq_of_val_eq (UInt32.eq_of_val_eq (Fin.ext h))

theorem strLtList_trans {a b c : List Char} (h1 : strLtList a b = true)
    (h2 : strLtList b c = true) : strLtList a c = true := by
  induction a generalizing b c with
  | nil =>
    cases b with
    | nil => simp [strLtList] at h1
    | cons y ys =>
      cases c with
      | nil => simp [strLtList] at h2
      | cons z zs => rfl
  | cons x xs ih =>
    cases b with
    | nil => simp [strLtList] at h1
    | cons y ys =>
      cases c with
      | nil => simp [strLtList] at h2
      | cons z zs =>
        rcases Nat.lt_trichotomy x.toNat y.toNat with hxy | hxy | hxy
        · rcases Nat.lt_trichotomy y.toNat z.toNat with hyz | hyz | hyz
          · simp [strLtList, Nat.lt_trans hxy hyz]
          · have hxz : x.toNat < z.toNat := hyz ▸ hxy
            simp [strLtList, hxz]
          · simp [strLtList, Nat.lt_asymm hyz, hyz] at h2
        · rcases Nat.lt_trichotomy y.toNat z.toNat with hyz | hyz | hyz
          · have hxz : x.toNat < z.toNat := hxy ▸ hyz
            simp [strLtList, hxz]
          · have h1t : strLtList xs ys = true := by
              simpa [strLtList, hxy, Nat.lt_irrefl] using h1
            have h2t : strLtList ys zs = true := by
              simpa [strLtList, hyz, Nat.lt_irrefl] using h2
            have hxz : x.toNat = z.toNat := hxy.trans hyz
            simp [strLtList, hxz, Nat.lt_irrefl, ih h1t h2t]
          · simp [strLtList, Nat.lt_asymm hyz, hyz] at h2
        · simp [strLtList, Nat.lt_asymm hxy, hxy] at h1

theorem strLtList_antisymm_eq {a b : List Char} (h1 : strLtList a b = false)
    (h2 : strLtList b a = false) : a = b := by
  induction a generalizing b with
  | nil =>
    cases b with
    | nil => rfl
    | cons y ys => simp [strLtList] at h1
  | cons x xs ih =>
    cases b with
    | nil => simp [strLtList] at h2
    | cons y ys =>
      rcases Nat.lt_trichotomy x.toNat y.toNat with hxy | hxy | hxy
      · simp [strLtList, hxy] at h1
      · have hx : x = y := charEqOfToNatEq hxy
        subst hx
        have h1t : strLtList xs ys = false := by
          simpa [strLtList, Nat.lt_irrefl] using h1
        have h2t : strLtList ys xs = false := by
          simpa [strLtList, Nat.lt_irrefl] using h2
        rw [ih h1t h2t]
      · simp [strLtList, Nat.lt_asymm hxy, hxy] at h2

theorem strLtList_asymm {a b : List Char} (h : strLtList a b = true) :
    strLtList b a = false := by
  rcases Bool.eq_false_or_eq_true (strLtList b a) with hba | hba
  · exfalso
    have htr := strLtList_trans h hba
    rw [strLtList_irrefl] at htr
    simp at htr
  · exact hba

theorem strLtList_false_trans {a b c : List Char} (h1 : strLtList b a = false)
    (h2 : strLtList c b = false) : strLtList c a = false := by
  rcases Bool.eq_false_or_eq_true (strLtList c a) with hca | hca
  · exfalso
    rcases Bool.eq_false_or_eq_true (strLtList a b) with hab | hab
    · have htr := strLtList_trans hca hab
      rw [h2] at htr
      simp at htr
    · have hba : a = b := strLtList_antisymm_eq hab h1
      rw [hba] at hca
      rw [h2] at hca
      simp at hca
  · exact hca

theorem stringDataEq {a b : String} (h : a.data = b.data) : a = b := by
  cases a
  cases b
  exact congrArg String.mk h

/-- Unfolding of the key order into its two list-level comparisons. -/
theorem keyLe_iff (a b : Variation) :
    keyLe a b ↔ (strLtList a.type.data b.type.data = true ∨
      (a.type = b.type ∧ strLtList b.name.data a.name.data = false)) := by
  simp [keyLe, keyLeB, strLt, strLe, Bool.or_eq_true, Bool.and_eq_true,
    beq_iff_eq, Bool.not_eq_true']

instance : IsTotal Variation keyLe := by
  constructor
  intro a b
  rw [keyLe_iff, keyLe_iff]
  rcases Bool.eq_false_or_eq_true (strLtList a.type.data b.type.data) with hab | hab
  · exact Or.inl (Or.inl hab)
  · rcases Bool.eq_false_or_eq_true (strLtList b.type.data a.type.data) with hba | hba
    · exact Or.inr (Or.inl hba)
    · have hts : a.type = b.type := stringDataEq (strLtList_antisymm_eq hab hba)
      rcases Bool.eq_false_or_eq_true (strLtList b.name.data a.name.data) with hnm | hnm
      · exact Or.inr (Or.inr ⟨hts.symm, strLtList_asymm hnm⟩)
      · exact Or.inl (Or.inr ⟨hts, hnm⟩)

instance : IsTrans Variation keyLe := by
  constructor
  intro a b c hab hbc
  rw [keyLe_iff] at hab hbc ⊢
  rcases hab with h1 | ⟨h1, h1n⟩
  · rcases hbc with h2 | ⟨h2, h2n⟩
    · exact Or.inl (strLtList_trans h1 h2)
    · exact Or.inl (h2 ▸ h1)
  · rcases hbc with h2 | ⟨h2, h2n⟩
    · exact Or.inl (h1 ▸ h2)
    · exact Or.inr ⟨h1.trans h2, strLtList_false_trans h1n h2n⟩

theorem keyLe_antisymm_key {a b : Variation} (hab : keyLe a b)
    (hba : keyLe b a) : varKey a = varKey b := by
  rw [keyLe_iff] at hab hba
  rcases hab with h1 | ⟨h1, h1n⟩
  · rcases hba with h2 | ⟨h2, h2n⟩
    · rw [strLtList_asymm h1] at h2
      exact absurd h2 Bool.false_ne_true
    · rw [h2] at h1
      rw [strLtList_irrefl] at h1
      exact absurd h1 Bool.false_ne_true
  · rcases hba with h2 | ⟨h2, h2n⟩
    · rw [h1] at h2
      rw [strLtList_irrefl] at h2
      exact absurd h2 Bool.false_ne_true
    · have hn : a.name = b.name := stringDataEq (strLtList_antisymm_eq h2n h1n)
      simp [varKey, h1, hn]

/-- The matcher succeeds exactly when the two canonically sorted lists
coincide (the length test is subsumed, since sorting preserves length). -/
theorem variations_match_iff (v1 v2 : List Variation) :
    variations_match v1 v2 = true ↔ sortVars v1 = sortVars v2 := by
  constructor
  · intro h
    by_cases hl : v1.length = v2.length
    · simpa [variations_match, hl] using h
    · simp [variations_match, hl] at h
  · intro h
    have hl : v1.length = v2.length := by
      have p1 := List.perm_insertionSort keyLe v1
      have p2 := List.perm_insertionSort keyLe v2
      calc v1.length = (sortVars v1).length := (p1.length_eq).symm
        _ = (sortVars v2).length := by rw [h]
        _ = v2.length := p2.length_eq
    simp [variations_match, hl, h]

/-- Two sorted lists that are permutations of each other and have
pairwise distinct `(type, name)` keys are equal. -/
theorem eq_of_perm_sorted_keys : ∀ {l₁ l₂ : List Variation},
    l₁.Perm l₂ → l₁.Sorted keyLe → l₂.Sorted keyLe →
    (l₁.map varKey).Nodup → l₁ = l₂ := by
  intro l₁
  induction l₁ with
  | nil =>
    intro l₂ hp _ _ _
    exact (hp.symm.eq_nil).symm
  | cons a t ih =>
    intro l₂ hp hs₁ hs₂ hn
    cases l₂ with
    | nil => exact absurd hp.eq_nil (by simp)
    | cons b t₂ =>
      have hb : b ∈ a :: t := hp.mem_iff.mpr (List.mem_cons_self b t₂)
      have ha : a ∈ b :: t₂ := hp.mem_iff.mp (List.mem_cons_self a t)
      have hab : a = b := by
        by_contra hne
        have hbt : b ∈ t := by
          rcases List.mem_cons.mp hb with h | h
          · exact absurd h.symm hne
          · exact h
        have hat₂ : a ∈ t₂ := by
          rcases List.mem_cons.mp ha with h | h
          · exact absurd h hne
          · exact h
        have h1 : keyLe a b := List.rel_of_sorted_cons hs₁ b hbt
        have h2 : keyLe b a := List.rel_of_sorted_cons hs₂ a hat₂
        have hkey : varKey a = varKey b := keyLe_antisymm_key h1 h2
        have hmem : varKey b ∈ t.map varKey := List.mem_map_of_mem varKey hbt
        have hnotin : varKey a ∉ t.map varKey := (List.nodup_cons.mp hn).1
        rw [← hkey] at hmem
        exact hnotin hmem
      subst hab
      have := ih hp.cons_inv hs₁.of_cons hs₂.of_cons (List.nodup_cons.mp hn).2
      rw [this]

/-- Permutations with pairwise distinct `(type, name)` keys always
match. -/
theorem perm_nodup_keys_match {v v' : List Variation} (hperm : v'.Perm v)
    (hkeys : (v.map varKey).Nodup) : variations_match v v' = true := by
  rw [variations_match_iff]
  have p1 : (sortVars v).Perm v := List.perm_insertionSort keyLe v
  have p2 : (sortVars v').Perm v' := List.perm_insertionSort keyLe v'
  have hp : (sortVars v).Perm (sortVars v') :=
    (p1.trans hperm.symm).trans p2.symm
  have hk : ((sortVars v).map varKey).Nodup := ((p1.map varKey).nodup_iff).mpr hkeys
  exact eq_of_perm_sorted_keys hp (List.sorted_insertionSort keyLe v)
    (List.sorted_insertionSort keyLe v') hk

/-! ### Claim theorems: C3 (corrected) -/

/-- C3 as stated is false: two singleton lists agreeing on `(type, name)`
but with different `price_modifier` entries are declared equal by the
spec-worded matcher yet unequal by the code, because the code compares
the sorted lists as whole dicts. -/
theorem claim_C3_counterexample :
    specVariationsMatch [⟨"size", "L", [("price_modifier", "1.0")]⟩]
        [⟨"size", "L", [("price_modifier", "2.0")]⟩] = true ∧
    variations_match [⟨"size", "L", [("price_modifier", "1.0")]⟩]
        [⟨"size", "L", [("price_modifier", "2.0")]⟩] = false := by
  decide

/-- C3 (amended): the matcher declares two selected-variation lists equal
iff they have the same length and, after stably sorting each by
`(type, name)`, they are element-wise equal as *entire* variation values —
`price_modifier` and any extra fields participate in the comparison
rather than being ignored. -/
theorem claim_C3_matcher_characterisation (a b : List Variation) :
    variations_match a b = true ↔
      (a.length = b.length ∧ sortVars a = sortVars b) := by
  rw [variations_match_iff]
  constructor
  · intro h
    refine ⟨?_, h⟩
    have p1 := List.perm_insertionSort keyLe a
    have p2 := List.perm_insertionSort keyLe b
    calc a.length = (sortVars a).length := p1.length_eq.symm
      _ = (sortVars b).length := by rw [h]
      _ = b.length := p2.length_eq
  · exact fun h => h.2

/-! ### Claim theorems: C2 (corrected) -/

theorem bumpFirst_none {p : String} {vars : List Variation} {q : Int}
    {l : List CartItem}
    (h : ∀ i ∈ l, ¬(i.product_id = p ∧ variations_match i.variations vars = true)) :
    bumpFirst p vars q l = none := by
  induction l with
  | nil => rfl
  | cons i rest ih =>
    have hi := h i (List.mem_cons_self i rest)
    simp only [bumpFirst, if_neg hi]
    rw [ih (fun j hj => h j (List.mem_cons_of_mem i hj))]
    rfl

theorem bumpFirst_append_last {p : String} {vars : List Variation} {q : Int}
    {l : List CartItem} {i0 : CartItem}
    (hl : ∀ i ∈ l, ¬(i.product_id = p ∧ variations_match i.variations vars = true))
    (hi : i0.product_id = p ∧ variations_match i0.variations vars = true) :
    bumpFirst p vars q (l ++ [i0]) =
      some (l ++ [{ i0 with
        quantity := i0.quantity + q,
        amount := match i0.unit_price with
          | some u => some (u * (i0.quantity + q))
          | none => i0.amount }]) := by
  induction l with
  | nil => simp [bumpFirst, hi]
  | cons j rest ih =>
    have hj := hl j (List.mem_cons_self j rest)
    simp only [List.cons_append, bumpFirst, if_neg hj]
    simp only [List.append_eq]
    rw [ih (fun k hk => hl k (List.mem_cons_of_mem j hk))]
    rfl

/-- C2 as stated is false: with two variation dicts sharing the same
`(type, name)` key but different `price_modifier` payloads, a permuted
re-add of the same variation multiset does not merge — the cart ends up
with two items for the product, each of quantity 1. -/
theorem claim_C2_counterexample :
    ([⟨"a", "x", [("price_modifier", "2")]⟩,
      ⟨"a", "x", [("price_modifier", "1")]⟩] : List Variation).Perm
      [⟨"a", "x", [("price_modifier", "1")]⟩,
       ⟨"a", "x", [("price_modifier", "2")]⟩] ∧
    ((add_to_cart default_shipping_calculator ∅ "s" "p" 1
        [⟨"a", "x", [("price_modifier", "1")]⟩,
         ⟨"a", "x", [("price_modifier", "2")]⟩] none "t").toOption.bind
      (fun r => (add_to_cart default_shipping_calculator r.2 "s" "p" 1
        [⟨"a", "x", [("price_modifier", "2")]⟩,
         ⟨"a", "x", [("price_modifier", "1")]⟩] none "t").toOption)).map
      (fun r => ((itemsAt r.2 "s").filter
        (fun i => i.product_id == "p")).length) = some 2 :=
  ⟨List.Perm.swap _ _ _, by decide⟩

/-- C2 (amended): for every session, product, positive quantities and
variation lists `v`, `v'` that are order-permutations of the same
variation set *in which no two variations share the same `(type, name)`
key*, adding `(p, q1, v)` and then `(p, q2, v')` to a cart that contains
no item matching `(p, v)` leaves exactly one cart item for `p` with that
variation set; its quantity is `q1 + q2`, and when it carries a unit
price `u` its amount is `u * (q1 + q2)`. -/
theorem claim_C2_add_add_merges (sc : ShipCalc) (st : Store)
    (sid p : String) (q1 q2 : Int) (v v' : List Variation)
    (up up' : Option ℚ) (now now' : String)
    (hq1 : 0 < q1) (hq2 : 0 < q2)
    (hperm : v'.Perm v) (hkeys : (v.map varKey).Nodup)
    (hfresh : ∀ i ∈ itemsAt st sid,
      ¬(i.product_id = p ∧ variations_match i.variations v = true)) :
    ∃ s1 st1 s2 st2,
      add_to_cart sc st sid p q1 v up now = .ok (s1, st1) ∧
      add_to_cart sc st1 sid p q2 v' up' now' = .ok (s2, st2) ∧
      ((itemsAt st2 sid).filter
        (fun i => i.product_id = p ∧
          variations_match i.variations v = true)).length = 1 ∧
      (∀ i ∈ itemsAt st2 sid,
        (i.product_id = p ∧ variations_match i.variations v = true) →
          i.quantity = q1 + q2 ∧
          (∀ u, i.unit_price = some u → i.amount = some (u * ((q1 + q2 : Int) : ℚ)))) := by
  have hq1' : ¬ q1 ≤ 0 := not_le.mpr hq1
  have hq2' : ¬ q2 ≤ 0 := not_le.mpr hq2
  have hvv' : variations_match v v' = true := perm_nodup_keys_match hperm hkeys
  -- the cart the first add starts from
  set cart0 : Cart := (lookupStore st sid).getD
    { session_id := sid, items := [], shipping_fee := 0.0,
      created_at := now, updated_at := now } with hcart0
  have hitems0 : ∀ i ∈ cart0.items,
      ¬(i.product_id = p ∧ variations_match i.variations v = true) := by
    cases hl : lookupStore st sid with
    | none => simp [hcart0, hl]
    | some c =>
      intro i hi
      exact hfresh i (by simpa [itemsAt, hl] using by simpa [hcart0, hl] using hi)
  -- first add appends a fresh item
  have hbump1 : bumpFirst p v q1 cart0.items = none := bumpFirst_none hitems0
  set n1 : CartItem :=
    { product_id := p, quantity := q1, variations := v,
      unit_price := up, amount := up.map (fun u => u * q1) } with hn1
  set cart1 : Cart :=
    { cart0 with items := cart0.items ++ [n1], updated_at := now } with hcart1
  set st1 : Store := storeSet st sid cart1 with hst1
  have hadd1 : add_to_cart sc st sid p q1 v up now =
      .ok (get_cart_summary sc st1 sid, st1) := by
    simp only [add_to_cart, if_neg hq1', ← hcart0, hbump1, ← hn1, ← hcart1, ← hst1]
  -- second add merges into the appended item
  have hlook1 : lookupStore st1 sid = some cart1 := lookup_storeSet_self st sid cart1
  have hnomatch' : ∀ i ∈ cart0.items,
      ¬(i.product_id = p ∧ variations_match i.variations v' = true) := by
    intro i hi hcontra
    refine hitems0 i hi ⟨hcontra.1, ?_⟩
    rw [variations_match_iff] at hcontra hvv' ⊢
    exact hcontra.2.trans hvv'.symm
  have hn1match : n1.product_id = p ∧ variations_match n1.variations v' = true := by
    refine ⟨rfl, ?_⟩
    simpa [hn1] using hvv'
  set n2 : CartItem :=
    { n1 with
      quantity := n1.quantity + q2,
      amount := (match n1.unit_price with
        | some u => some (u * (n1.quantity + q2))
        | none => n1.amount) } with hn2
  have hbump2 : bumpFirst p v' q2 cart1.items = some (cart0.items ++ [n2]) := by
    rw [hcart1]
    exact bumpFirst_append_last hnomatch' hn1match
  set cart2 : Cart :=
    { cart1 with items := cart0.items ++ [n2], updated_at := now' } with hcart2
  set st2 : Store := storeSet st1 sid cart2 with hst2
  have hadd2 : add_to_cart sc st1 sid p q2 v' up' now' =
      .ok (get_cart_summary sc st2 sid, st2) := by
    simp only [add_to_cart, if_neg hq2', hlook1, Option.getD_some, hbump2, ← hcart2,
      ← hst2]
  have hitems2 : itemsAt st2 sid = cart0.items ++ [n2] := by
    simp [itemsAt, hst2, lookup_storeSet_self, hcart2]
  have hn2match : n2.product_id = p ∧ variations_match n2.variations v = true := by
    constructor
    · simp [hn2, hn1]
    · have : variations_match v v = true := by
        rw [variations_match_iff]
      simpa [hn2, hn1] using this
  refine ⟨_, st1, _, st2, hadd1, hadd2, ?_, ?_⟩
  · rw [hitems2, List.filter_append]
    rw [List.filter_eq_nil_iff.mpr (fun i hi => by
      simpa using hitems0 i hi)]
    simp [hn2match]
  · intro i hi hmatch
    rw [hitems2] at hi
    rcases List.mem_append.mp hi with hmem | hmem
    · exact absurd hmatch (hitems0 i hmem)
    · have hi2 : i = n2 := by simpa using hmem
      subst hi2
      constructor
      · simp [hn2, hn1]
      · intro u hu
        have hup : up = some u := by simpa [hn2, hn1] using hu
        simp [hn2, hn1, hup]

/-- Witness for C2 (amended): concrete double add on an empty store. -/
theorem claim_C2_witness :
    ∃ s1 st1 s2 st2,
      add_to_cart default_shipping_calculator ∅ "s" "p" 1
        [⟨"color", "red", []⟩] (some 10) "t" = .ok (s1, st1) ∧
      add_to_cart default_shipping_calculator st1 "s" "p" 2
        [⟨"color", "red", []⟩] none "t2" = .ok (s2, st2) ∧
      ((itemsAt st2 "s").filter
        (fun i => i.product_id = "p" ∧
          variations_match i.variations [⟨"color", "red", []⟩] = true)).length = 1 ∧
      (∀ i ∈ itemsAt st2 "s",
        (i.product_id = "p" ∧
          variations_match i.variations [⟨"color", "red", []⟩] = true) →
          i.quantity = 1 + 2 ∧
          (∀ u, i.unit_price = some u →
            i.amount = some (u * ((1 + 2 : Int) : ℚ)))) :=
  claim_C2_add_add_merges default_shipping_calculator ∅ "s" "p" 1 2
    [⟨"color", "red", []⟩] [⟨"color", "red", []⟩] (some 10) none "t" "t2"
    (by decide) (by decide) (List.Perm.refl _) (by decide) (by decide)

/-! ### Claim theorems: C4 -/

theorem foldl_add_map {α : Type} (f : α → ℚ) :
    ∀ (l : List α) (acc : ℚ),
      l.foldl (fun a x => a + f x) acc = acc + (l.map f).sum := by
  intro l
  induction l with
  | nil => intro acc; simp
  | cons x xs ih =>
    intro acc
    simp [ih]
    ring

theorem itemPrice_eq (p : ProductRec) (sel : List Variation) :
    itemPrice p sel =
      p.base_price + (sel.map (firstModifier (p.variations.getD []))).sum := by
  unfold itemPrice
  by_cases hg : sel ≠ [] ∧ p.variations.getD [] ≠ []
  · rw [if_pos hg, foldl_add_map]
  · rw [if_neg hg]
    rcases not_and_or.mp hg with hs | hc
    · have : sel = [] := not_not.mp hs
      simp [this]
    · have hc0 : p.variations.getD [] = [] := not_not.mp hc
      have : (sel.map (firstModifier (p.variations.getD []))).sum = 0 := by
        apply List.sum_eq_zero
        intro x hx
        rcases List.mem_map.mp hx with ⟨sv, _, rfl⟩
        simp [hc0, firstModifier]
      rw [this, add_zero]

/-- C4: whenever `calculate_total` succeeds, every priced line carries
unit price `base_price` plus the sum of the price modifiers of catalog
entries matching the selected variations (by `type` and `name`; an
unmatched selection contributes nothing), and the returned
`total_amount` is the sum over all lines of unit price times quantity.
The embedding is a pure function of the lookup callback and its input,
so the computation touches no cart or order state by construction. -/
theorem claim_C4_calculate_total (lookup : String → List ProductRec)
    (lines : List ReqLine) (res : CalcResponse)
    (h : calculate_total lookup lines = .ok res) :
    res.total_amount =
      (res.items.map (fun it => it.unit_price * (it.quantity : ℚ))).sum ∧
    List.Forall₂ (fun (line : ReqLine) (it : PricedItem) =>
      ∃ p ps, lookup line.product_id = p :: ps ∧ it = specPricedLine line p)
      lines res.items := by
  induction lines generalizing res with
  | nil =>
    simp [calculate_total, calcLoop, Except.map] at h
    rw [← h]
    exact ⟨rfl, List.Forall₂.nil⟩
  | cons line rest ih =>
    simp only [calculate_total, calcLoop] at h
    cases hl : lookup line.product_id with
    | nil => rw [hl] at h; simp [Except.map] at h
    | cons p ps =>
      rw [hl] at h
      cases hrest : calcLoop lookup rest with
      | error e => rw [hrest] at h; simp [Except.map] at h
      | ok r =>
        obtain ⟨its, total⟩ := r
        rw [hrest] at h
        simp only [Except.map] at h
        obtain hres := by simpa using h
        have ihres := ih { items := its, total_amount := total }
          (by simp [calculate_total, hrest, Except.map])
        have h1 : total =
            (its.map (fun it => it.unit_price * (it.quantity : ℚ))).sum := by
          simpa using ihres.1
        have h2 : List.Forall₂ (fun (l : ReqLine) (it : PricedItem) =>
            ∃ p ps, lookup l.product_id = p :: ps ∧ it = specPricedLine l p)
            rest its := by
          simpa using ihres.2
        subst hres
        constructor
        · simp only [List.map_cons, List.sum_cons]
          rw [← h1]
        · exact List.Forall₂.cons ⟨p, ps, hl, by simp [specPricedLine, itemPrice_eq]⟩ h2

/-- Product catalog entry of the worked spec example for C4. -/
def c4Product : ProductRec :=
  { name := "Widget", base_price := 20,
    variations := some [{ type := "color", name := "red", price_modifier := 3.5 }] }

/-- Lookup callback of the worked spec example for C4. -/
def c4Lookup : String → List ProductRec :=
  fun pid => if pid = "P1" then [c4Product] else []

/-- Requested lines of the worked spec example for C4. -/
def c4Lines : List ReqLine :=
  [{ product_id := "P1", quantity := 2, variations := [⟨"color", "red", []⟩] }]

/-- Response of the worked spec example for C4. -/
def c4Res : CalcResponse :=
  { items := [{ product_id := "P1", product_name := "Widget", quantity := 2,
                unit_price := 23.5, variations := some [⟨"color", "red", []⟩] }],
    total_amount := 47 }

/-- Witness for C4: the worked example of the spec — base price 20.0, one
matching catalog entry with modifier 3.5, quantity 2, giving unit price
23.5 and total 47.0. -/
theorem claim_C4_witness :
    c4Res.total_amount =
      (c4Res.items.map (fun it => it.unit_price * (it.quantity : ℚ))).sum ∧
    List.Forall₂ (fun (line : ReqLine) (it : PricedItem) =>
      ∃ p ps, c4Lookup line.product_id = p :: ps ∧ it = specPricedLine line p)
      c4Lines c4Res.items :=
  claim_C4_calculate_total c4Lookup c4Lines c4Res (by decide)

/-! ### Claim theorems: C7 and C5 -/

/-- The early-return chain fails as soon as any of its checks fails. -/
theorem runChecks_false {d : List (String × PyVal)}
    {cs : List (List (String × PyVal) → Bool × String)}
    {c : List (String × PyVal) → Bool × String}
    (hmem : c ∈ cs) (hc : (c d).1 = false) : (runChecks d cs).1 = false := by
  induction cs with
  | nil => cases hmem
  | cons c0 rest ih =>
    rcases List.mem_cons.mp hmem with h | h
    · subst h
      simp [runChecks, hc]
    · rcases Bool.eq_false_or_eq_true ((c0 d).1) with h0 | h0
      · simp [runChecks, h0, ih h]
      · simp [runChecks, h0]

/-- C7: product validation rejects any product dict missing the
`stock_level` key; accepts an otherwise-valid product whose `base_price`
is the string `"12.50"` (numeric coercion to a non-negative number); and
rejects any product dict whose `base_price` is the integer `-1`. -/
theorem claim_C7_validate_product :
    (∀ d : List (String × PyVal), dget d "stock_level" = none →
      (validate_product (.pdict d)).1 = false) ∧
    validate_product (.pdict [("id", .pstr "p1"), ("name", .pstr "Widget"),
      ("base_price", .pstr "12.50"), ("stock_level", .pint 3)]) = (true, "") ∧
    (∀ d : List (String × PyVal), dget d "base_price" = some (.pint (-1)) →
      (validate_product (.pdict d)).1 = false) := by
  refine ⟨?_, by decide, ?_⟩
  · intro d h
    show (runChecks d productChecks).1 = false
    apply runChecks_false (c := checkProductRequired)
      (by simp [productChecks])
    have hmem : "stock_level" ∈
        missingKeys d ["id", "name", "base_price", "stock_level"] := by
      rw [missingKeys, List.mem_filter]
      refine ⟨by simp, ?_⟩
      simp [hasKey, h]
    have hne : missingKeys d ["id", "name", "base_price", "stock_level"] ≠ [] :=
      List.ne_nil_of_mem hmem
    simp [checkProductRequired, hne]
  · intro d h
    show (runChecks d productChecks).1 = false
    apply runChecks_false (c := checkProductBasePrice)
      (by simp [productChecks])
    have hneg : ((.pint (-1) : PyVal) |> pyFloat?) = some (-1 : ℚ) := by
      simp [pyFloat?]
    simp [checkProductBasePrice, h, hneg]

/-- Witness for C7: the two universally quantified clauses at concrete
dicts. -/
theorem claim_C7_witness :
    (validate_product (.pdict [("id", .pstr "p1")])).1 = false ∧
    (validate_product (.pdict [("id", .pstr "p1"), ("name", .pstr "Widget"),
      ("base_price", .pint (-1)), ("stock_level", .pint 3)])).1 = false :=
  ⟨claim_C7_validate_product.1 [("id", .pstr "p1")] rfl,
   claim_C7_validate_product.2.2 [("id", .pstr "p1"), ("name", .pstr "Widget"),
     ("base_price", .pint (-1)), ("stock_level", .pint 3)] rfl⟩

/-- The order dict of the C5 failing input: it satisfies every documented
requirement on the merchant callback result (`order_id`, non-empty
`items` each with `product_id` and `quantity`, numeric `total_amount`)
but its item has no `unit_price`. -/
def c5Order : PyVal :=
  .pdict [("order_id", .pstr "ORD-1"),
          ("items", .plist [.pdict [("product_id", .pstr "p1"),
                                    ("quantity", .pint 1)]]),
          ("total_amount", .pfloat 10)]

/-- C5 is a code bug: the failing input `c5Order` passes
`validate_order_dict`, yet `create_order` does not return a typed order —
the mapping step reads `item["unit_price"]`, which order-item validation
never required, and raises an uncaught `KeyError` instead of the
specified `ValidationError`. -/
theorem claim_C5_code_bug :
    validate_order_dict c5Order = (true, "") ∧
    (create_order_from_callback c5Order (some "cust")).isUncaught = true ∧
    mapOrderItem (.pdict [("product_id", .pstr "p1"),
      ("quantity", .pint 1)]) = none :=
  ⟨by decide, by decide, rfl⟩

/-! ### Claim theorems: C10 -/

/-- No two distinct items of a cart agree on (product id, variation
class): the at-most-one-item-per-identity invariant. -/
def ItemsDistinct (l : List CartItem) : Prop :=
  l.Pairwise (fun i j => ¬(i.product_id = j.product_id ∧
    variations_match i.variations j.variations = true))

/-- Stores reachable from the empty store by the mutating cart-store
operations (`view_cart` never changes the store, so it needs no step). -/
inductive Reachable : Store → Prop where
  | empty : Reachable ∅
  | add (sc : ShipCalc) (st : Store) (sid pid : String) (q : Int)
      (vars : List Variation) (up : Option ℚ) (now : String)
      (s : CartSummary) (st' : Store) :
      Reachable st → add_to_cart sc st sid pid q vars up now = .ok (s, st') →
      Reachable st'
  | remove (sc : ShipCalc) (st : Store) (sid pid : String)
      (vars : List Variation) (now : String) (r : CartView) (st' : Store) :
      Reachable st → remove_from_cart sc st sid pid vars now = (r, st') →
      Reachable st'

theorem lookup_storeSet (st : Store) (sid k : String) (c : Cart) :
    lookupStore (storeSet st sid c) k =
      if k = sid then some c else lookupStore st k := by
  induction st with
  | nil =>
    by_cases h : k = sid
    · simp [storeSet, lookupStore, h]
    · have h' : ¬ sid = k := fun hh => h hh.symm
      simp [storeSet, lookupStore, h, h']
  | cons p rest ih =>
    obtain ⟨k0, c0⟩ := p
    by_cases h0 : k0 = sid
    · subst h0
      by_cases hk : k = k0
      · subst hk
        simp [storeSet, lookupStore]
      · have hk' : ¬ k0 = k := fun hh => hk hh.symm
        simp [storeSet, lookupStore, hk, hk']
    · by_cases hkk : k0 = k
      · subst hkk
        have hks : ¬ k0 = sid := h0
        have hsk : ¬ k0 = sid := h0
        simp [storeSet, lookupStore, h0, hks]
      · simp [storeSet, lookupStore, h0, hkk, ih]

theorem bumpFirst_eq_none_forall {p : String} {vars : List Variation} {q : Int}
    {l : List CartItem} (h : bumpFirst p vars q l = none) :
    ∀ i ∈ l, ¬(i.product_id = p ∧ variations_match i.variations vars = true) := by
  induction l with
  | nil => intro i hi; cases hi
  | cons j rest ih =>
    intro i hi
    by_cases hj : j.product_id = p ∧ variations_match j.variations vars = true
    · simp [bumpFirst, hj] at h
    · simp only [bumpFirst, if_neg hj] at h
      rcases List.mem_cons.mp hi with hh | hh
      · exact hh ▸ hj
      · cases hb : bumpFirst p vars q rest with
        | some l' => rw [hb] at h; simp [Option.map] at h
        | none => exact ih hb i hh

theorem bumpFirst_mem_shape {p : String} {vars : List Variation} {q : Int} :
    ∀ {l l' : List CartItem}, bumpFirst p vars q l = some l' →
    ∀ j' ∈ l', ∃ j ∈ l, j'.product_id = j.product_id ∧
      j'.variations = j.variations := by
  intro l
  induction l with
  | nil => intro l' h; simp [bumpFirst] at h
  | cons i rest ih =>
    intro l' h j' hj'
    by_cases hi : i.product_id = p ∧ variations_match i.variations vars = true
    · simp only [bumpFirst, if_pos hi] at h
      obtain hl' := by simpa using h
      rw [← hl'] at hj'
      rcases List.mem_cons.mp hj' with hh | hh
      · exact ⟨i, List.mem_cons_self i rest, by simp [hh]⟩
      · exact ⟨j', List.mem_cons_of_mem i hh, rfl, rfl⟩
    · simp only [bumpFirst, if_neg hi] at h
      cases hb : bumpFirst p vars q rest with
      | none => rw [hb] at h; simp [Option.map] at h
      | some rest' =>
        rw [hb] at h
        obtain hl' := by simpa using h
        rw [← hl'] at hj'
        rcases List.mem_cons.mp hj' with hh | hh
        · exact ⟨i, List.mem_cons_self i rest, by simp [hh]⟩
        · obtain ⟨j, hjm, hj1, hj2⟩ := ih hb j' hh
          exact ⟨j, List.mem_cons_of_mem i hjm, hj1, hj2⟩

theorem bumpFirst_pairwise {p : String} {vars : List Variation} {q : Int} :
    ∀ {l l' : List CartItem}, ItemsDistinct l →
    bumpFirst p vars q l = some l' → ItemsDistinct l' := by
  intro l
  induction l with
  | nil => intro l' _ h; simp [bumpFirst] at h
  | cons i rest ih =>
    intro l' hd h
    obtain ⟨hd1, hd2⟩ := List.pairwise_cons.mp hd
    by_cases hi : i.product_id = p ∧ variations_match i.variations vars = true
    · simp only [bumpFirst, if_pos hi] at h
      obtain hl' := by simpa using h
      rw [← hl']
      refine List.pairwise_cons.mpr ⟨?_, hd2⟩
      intro j hj
      simpa using hd1 j hj
    · simp only [bumpFirst, if_neg hi] at h
      cases hb : bumpFirst p vars q rest with
      | none => rw [hb] at h; simp [Option.map] at h
      | some rest' =>
        rw [hb] at h
        obtain hl' := by simpa using h
        rw [← hl']
        refine List.pairwise_cons.mpr ⟨?_, ih hd2 hb⟩
        intro j' hj'
        obtain ⟨j, hjm, hj1, hj2⟩ := bumpFirst_mem_shape hb j' hj'
        rw [hj1, hj2]
        exact hd1 j hjm

/-- C10: starting from the empty store, every reachable cart contains at
most one item per identity class — `add` merges into the first matching
item instead of appending a duplicate and `remove` only deletes items, so
no two distinct items of one cart ever match each other on
(product id, variation set). -/
theorem claim_C10_unique_item_identity (st : Store) (h : Reachable st) :
    ∀ sid cart, lookupStore st sid = some cart → ItemsDistinct cart.items := by
  induction h with
  | empty =>
    intro sid cart h
    simp [lookupStore, EmptyCollection.emptyCollection] at h
  | add sc st sid pid q vars up now s st' _ hstep ih =>
    intro sid' cart' hl'
    by_cases hq : q ≤ 0
    · simp [add_to_cart, hq] at hstep
    · simp only [add_to_cart, if_neg hq] at hstep
      obtain ⟨_, hst'⟩ := by simpa using hstep
      set cart0 : Cart := (lookupStore st sid).getD
        { session_id := sid, items := [], shipping_fee := 0.0,
          created_at := now, updated_at := now } with hcart0
      have hd0 : ItemsDistinct cart0.items := by
        cases hls : lookupStore st sid with
        | none => simp [hcart0, hls, ItemsDistinct]
        | some c0 => simpa [hcart0, hls] using ih sid c0 hls
      rw [← hst', lookup_storeSet] at hl'
      by_cases hsid : sid' = sid
      · rw [if_pos hsid] at hl'
        obtain hc' := Option.some.inj hl'
        rw [← hc']
        cases hb : bumpFirst pid vars q cart0.items with
        | some bumped =>
          simpa [hb] using bumpFirst_pairwise hd0 hb
        | none =>
          simp only [hb]
          refine List.pairwise_append.mpr ⟨hd0, by simp [ItemsDistinct], ?_⟩
          intro a ha b hb'
          obtain hbnew := by simpa using hb'
          rw [hbnew]
          simpa using bumpFirst_eq_none_forall hb a ha
      · rw [if_neg hsid] at hl'
        exact ih sid' cart' hl'
  | remove sc st sid pid vars now r st' _ hstep ih =>
    intro sid' cart' hl'
    cases hls : lookupStore st sid with
    | none =>
      simp only [remove_from_cart, hls] at hstep
      obtain ⟨_, hst'⟩ := by simpa using hstep
      rw [← hst'] at hl'
      exact ih sid' cart' hl'
    | some c0 =>
      simp only [remove_from_cart, hls] at hstep
      obtain ⟨_, hst'⟩ := by simpa using hstep
      rw [← hst', lookup_storeSet] at hl'
      by_cases hsid : sid' = sid
      · rw [if_pos hsid] at hl'
        obtain hc' := Option.some.inj hl'
        rw [← hc']
        exact (ih sid c0 hls).sublist (List.filter_sublist c0.items)
      · rw [if_neg hsid] at hl'
        exact ih sid' cart' hl'

/-- Witness for C10: the store reached by one concrete `add` satisfies the
invariant. -/
theorem claim_C10_witness :
    ItemsDistinct [{ product_id := "p", quantity := 2, variations := [],
                     unit_price := some 10, amount := some 20 }] :=
  claim_C10_unique_item_identity
    [("s", { session_id := "s",
             items := [{ product_id := "p", quantity := 2, variations := [],
                         unit_price := some 10, amount := some 20 }],
             shipping_fee := 0, created_at := "t", updated_at := "t" })]
    (Reachable.add default_shipping_calculator ∅ "s" "p" 2 [] (some 10) "t"
      { session_id := "s",
        items := [{ product_id := "p", quantity := 2, variations := [],
                    unit_price := some 10, amount := some 20 }],
        item_count := 1, subtotal := 20, shipping_fee := 5,
        total_amount := 25, updated_at := "t" }
      [("s", { session_id := "s",
               items := [{ product_id := "p", quantity := 2, variations := [],
                           unit_price := some 10, amount := some 20 }],
               shipping_fee := 0, created_at := "t", updated_at := "t" })]
      Reachable.empty (by decide))
    "s"
    { session_id := "s",
      items := [{ product_id := "p", quantity := 2, variations := [],
                  unit_price := some 10, amount := some 20 }],
      shipping_fee := 0, created_at := "t", updated_at := "t" }
    (by decide)

end AgenticCommerce
